import Mathlib

/-!
A verification development for the streak/reverse-streak accounting engine and
the reminder-scheduling decision logic of the Quraan_Wird_Bot repository.

Time is modelled as whole minutes (`Int`); one calendar day is 1440 minutes and
the calendar day of an instant `t` is `t.fdiv 1440` (floor division, matching
Python's `datetime.date()` ordering and `timedelta.days`).  Machine state is the
record store visible to the engine: the subject's streak row and the append-only
check-in ledger.  All functions are translated from
`src/bot/streak_counter/streak_counter.py`, `src/bot/handlers/tafsir.py`,
`src/bot/handlers/reminder.py` and `src/bot/database/db_manager.py`.
-/

/-- One day in minutes (`timedelta(days=1)` = `timedelta(hours=24)`). -/
def minutes_per_day : Int := 1440

/-- The streaks-table row of one subject (`STREAKS_TABLE` in `db_manager.py`):
`current_streak`, `reverse_streak`, and the nullable `last_check_in` instant. -/
structure StreakRecord where
  current_streak : Nat
  reverse_streak : Nat
  last_check_in : Option Int
deriving DecidableEq, Repr

/-- A row of the check-in ledger (`CHECK_INS_TABLE`): the insertion time and the
`checkmark_status` flag, as inserted by `DatabaseManager.record_check_in`. -/
structure CheckInEvent where
  check_in_time : Int
  checkmark_status : Bool
deriving DecidableEq, Repr

/-- The store state for one subject: its streak row and its check-in ledger. -/
structure DbState where
  streak : StreakRecord
  check_ins : List CheckInEvent
deriving DecidableEq, Repr

/-- The zero state a fresh subject is created with (`get_or_create_streak`
inserts `current_streak = 0`, `reverse_streak = 0`, no `last_check_in`,
and the ledger starts empty). -/
def init_state : DbState := ⟨⟨0, 0, none⟩, []⟩

/-- Start of the calendar day containing `t` (midnight), in minutes. -/
def day_start (t : Int) : Int := (t.fdiv minutes_per_day) * minutes_per_day

/-- `DatabaseManager.get_today_check_ins`: all ledger rows whose
`check_in_time` is on or after today's midnight. -/
def get_today_check_ins (db : DbState) (now : Int) : List CheckInEvent :=
  db.check_ins.filter (fun e => decide (day_start now ≤ e.check_in_time))

/-- `StreakCounter._load_todays_checkins`: the times of today's ledger rows
whose `checkmark_status` is set. -/
def load_todays_checkins (db : DbState) (now : Int) : List Int :=
  ((get_today_check_ins db now).filter (fun e => e.checkmark_status)).map
    (fun e => e.check_in_time)

/-- `StreakCounter.has_checkmark_today`: some loaded checkmark time lies within
the trailing 24 hours of `now` (`(current_time - check_time) < timedelta(hours=24)`). -/
def has_checkmark_today (today_checkmarks : List Int) (now : Int) : Bool :=
  today_checkmarks.any (fun c => decide (now - c < minutes_per_day))

/-- `DatabaseManager.record_check_in`: append one ledger row at the current time. -/
def record_check_in (db : DbState) (now : Int) (has_checkmark : Bool) : DbState :=
  { db with check_ins := db.check_ins ++ [⟨now, has_checkmark⟩] }

/-- `DatabaseManager.update_user_streak`: overwrite the streak row with the new
counters, unconditionally setting `last_check_in` to the current time. -/
def update_user_streak (db : DbState) (cs rs : Nat) (now : Int) : DbState :=
  { db with streak := ⟨cs, rs, some now⟩ }

/-- The pure counter computation of `StreakCounter.update_streak`
(lines 60-137 of `streak_counter.py`): first the over-24h gap reset
(lines 78-86), then the branch on first-ever interaction (108-115), the
over-24h branch (120-125) and the within-24h branch (126-137) with the
same-calendar-day duplicate test (line 131). -/
def update_streak_counters (db : DbState) (has_checkmark : Bool) (current_time : Int) :
    Nat × Nat :=
  let cs0 := db.streak.current_streak
  let rs0 := db.streak.reverse_streak
  let gapped : Nat × Nat :=
    match db.streak.last_check_in with
    | some c =>
        if current_time - c > minutes_per_day then
          let days_missed := (current_time - c).fdiv minutes_per_day
          if days_missed > 0 then (0, days_missed.toNat) else (cs0, rs0)
        else (cs0, rs0)
    | none => (cs0, rs0)
  let already := has_checkmark_today (load_todays_checkins db current_time) current_time
  match db.streak.last_check_in with
  | none => if has_checkmark then (1, 0) else (0, 1)
  | some c =>
      if current_time - c > minutes_per_day then
        if has_checkmark then (1, 0) else gapped
      else
        if has_checkmark then
          (if (!already) || (current_time.fdiv minutes_per_day > c.fdiv minutes_per_day)
            then gapped.1 + 1 else gapped.1, 0)
        else gapped

/-- `StreakCounter.update_streak`: returns the new counters and the updated
store.  When `has_checkmark` is set, a ledger row is inserted (line 106)
before the streak row is committed (line 140). -/
def update_streak (db : DbState) (has_checkmark : Bool) (current_time : Int) :
    (Nat × Nat) × DbState :=
  let result := update_streak_counters db has_checkmark current_time
  let db1 := if has_checkmark then record_check_in db current_time true else db
  (result, update_user_streak db1 result.1 result.2 current_time)

/-- The store state left behind when the final `update_user_streak` commit of
`update_streak` raises: the `record_check_in` insert at line 106 has already
executed, the streak-row write at line 140 never happens, and the exception
propagates to the caller. -/
def update_streak_failed_commit (db : DbState) (has_checkmark : Bool) (current_time : Int) :
    DbState :=
  if has_checkmark then record_check_in db current_time true else db

/-- The caller-facing replies of the checkmark branch of `handle_text`
(`src/bot/handlers/tafsir.py`, lines 29-77). -/
inductive CheckmarkReply where
  | already_completed : CheckmarkReply
  | completed : Nat → Nat → CheckmarkReply
deriving DecidableEq, Repr

/-- The checkmark branch of `handle_text`: if the subject already has a
checkmark within the trailing 24 hours (`has_checkmark_today`), reply
"already completed" and return without touching the store; otherwise run
`update_streak(True, now)` and reply with the new counters. -/
def handle_checkmark_message (db : DbState) (now : Int) : CheckmarkReply × DbState :=
  if has_checkmark_today (load_todays_checkins db now) now then
    (CheckmarkReply.already_completed, db)
  else
    (CheckmarkReply.completed (update_streak db true now).1.1 (update_streak db true now).1.2,
      (update_streak db true now).2)

/-- `StreakCounter.get_appropriate_threshold` (lines 144-165). -/
def get_appropriate_threshold (days : Int) (is_reward : Bool) : Int :=
  if is_reward then
    if days ≥ 30 then 30
    else if days ≥ 7 then 7
    else 1
  else
    if days ≥ 30 then 30
    else if days ≥ 7 then 7
    else if days ≥ 5 then 5
    else if days ≥ 3 then 3
    else 1

/-- One engine call `(has_checkmark, current_time)` applied to the store. -/
def advance_step (db : DbState) (call : Bool × Int) : DbState :=
  (update_streak db call.1 call.2).2

/-- The store reached from the fresh zero state by a sequence of engine calls. -/
def run_calls (calls : List (Bool × Int)) : DbState :=
  calls.foldl advance_step init_state

/-- A configured reminder time-of-day (`datetime.time(hour, minute)`). -/
structure ReminderTime where
  hour : Nat
  minute : Nat
deriving DecidableEq, Repr

/-- Left-pad a number below 10 with a zero, as Python's time formatting does. -/
def pad2 (n : Nat) : String := if n < 10 then "0" ++ toString n else toString n

/-- Python's `time.isoformat()` for a time with zero seconds: `"HH:MM:SS"`. -/
def time_isoformat (t : ReminderTime) : String :=
  pad2 t.hour ++ ":" ++ pad2 t.minute ++ ":00"

/-- `DatabaseManager.record_reminder_sent` stores `reminder_time.isoformat()`
as the `reminder_time` field of the sent-reminder row. -/
def record_reminder_sent (t : ReminderTime) : String := time_isoformat t

/-- Python's `str.split(":")` on the character list of a string: cut at every
colon, keeping empty fields. -/
def split_on_colon : List Char → List (List Char)
  | [] => [[]]
  | c :: rest =>
      let r := split_on_colon rest
      if c = ':' then [] :: r
      else
        match r with
        | [] => [[c]]
        | g :: gs => (c :: g) :: gs

/-- Python's `int(...)` on one split field: succeeds exactly on a non-empty
all-digit field (the stored formats carry no sign or spaces). -/
def parse_nat_digits (cs : List Char) : Option Nat :=
  if cs.isEmpty || !(cs.all (fun c => c.isDigit)) then none
  else some (cs.foldl (fun n c => n * 10 + (c.toNat - 48)) 0)

/-- The parse at line 478 of `handlers/reminder.py`:
`sent_h, sent_m = map(int, sent_time_str.split(":"))`.  A string that does not
split into exactly two integer fields raises, and the surrounding bare
`except: pass` swallows the error, so the record is skipped (`none`). -/
def parse_sent_time (s : String) : Option (Nat × Nat) :=
  match split_on_colon s.toList with
  | [hs, ms] =>
      match parse_nat_digits hs, parse_nat_digits ms with
      | some h, some m => some (h, m)
      | _, _ => none
  | _ => none

/-- The dedup scan of `check_and_send_reminders` (lines 470-484): some
sent-reminder row of today parses to exactly this (hour, minute). -/
def already_sent_today (sent_times : List String) (rt : ReminderTime) : Bool :=
  sent_times.any (fun s =>
    match parse_sent_time s with
    | some hm => decide (hm = (rt.hour, rt.minute))
    | none => false)

/-- Whether `check_and_send_reminders` schedules a send for one configured slot
`rt`: the current local (hour, minute) equals `rt` exactly (line 467), no
sent-reminder row of today matches it (lines 470-484), and the subject has no
checkmark today (lines 486-499). -/
def should_schedule_reminder (rt : ReminderTime) (now : ReminderTime)
    (sent_times : List String) (has_checkmark : Bool) : Bool :=
  decide (now = rt) && !(already_sent_today sent_times rt) && !has_checkmark

/-- The per-subject reminder-due decision: some configured slot gets a send
scheduled on this tick. -/
def reminder_due (reminder_times : List ReminderTime) (now : ReminderTime)
    (sent_times : List String) (has_checkmark : Bool) : Bool :=
  reminder_times.any (fun rt => should_schedule_reminder rt now sent_times has_checkmark)

/-- C3: for a subject with no prior check-in, a completion yields counters
(1, 0) and a non-completion yields (0, 1). -/
theorem c3_first_interaction (db : DbState) (t : Int)
    (h : db.streak.last_check_in = none) :
    (update_streak db true t).1 = (1, 0) ∧ (update_streak db false t).1 = (0, 1) := by
  simp [update_streak, update_streak_counters, h]

theorem c3_first_interaction_witness :
    (update_streak init_state true 600).1 = (1, 0) ∧
      (update_streak init_state false 600).1 = (0, 1) :=
  c3_first_interaction init_state 600 rfl

/-- C9: `get_appropriate_threshold` is the monotonic step function with reward
buckets {1,7,30} and warning buckets {1,3,5,7,30} described by the spec, it
only takes values in {1,3,5,7,30}, and in particular threshold(2, reward)=1,
threshold(10, warning)=7, threshold(30, reward)=30. -/
theorem c9_threshold_buckets :
    (∀ d : Int,
        get_appropriate_threshold d true =
          (if d ≥ 30 then 30 else if d ≥ 7 then 7 else 1) ∧
        get_appropriate_threshold d false =
          (if d ≥ 30 then 30 else if d ≥ 7 then 7
            else if d ≥ 5 then 5 else if d ≥ 3 then 3 else 1)) ∧
    (∀ (d₁ d₂ : Int) (b : Bool), d₁ ≤ d₂ →
        get_appropriate_threshold d₁ b ≤ get_appropriate_threshold d₂ b) ∧
    (∀ (d : Int) (b : Bool),
        get_appropriate_threshold d b ∈ ([1, 3, 5, 7, 30] : List Int)) ∧
    get_appropriate_threshold 2 true = 1 ∧
    get_appropriate_threshold 10 false = 7 ∧
    get_appropriate_threshold 30 true = 30 := by
  refine ⟨fun d => ⟨rfl, rfl⟩, ?_, ?_, by decide, by decide, by decide⟩
  · intro d₁ d₂ b hle
    cases b <;> simp only [get_appropriate_threshold] <;> split_ifs <;> omega
  · intro d b
    cases b <;> simp only [get_appropriate_threshold] <;> split_ifs <;> simp

theorem c9_threshold_buckets_witness :
    get_appropriate_threshold 5 true ≤ get_appropriate_threshold 10 true :=
  c9_threshold_buckets.2.1 5 10 true (by decide)

theorem fdiv_day (t : Int) : t.fdiv minutes_per_day = t / 1440 := by
  unfold minutes_per_day
  exact Int.fdiv_eq_ediv _ (by norm_num)

/-- C2: with a prior check-in more than 24 hours old, a non-completion exactly
N whole days (N ≥ 2) after the last check-in yields counters (0, N), uncapped;
a completion after any gap longer than 24 hours yields (1, 0) regardless of
the prior reverse streak. -/
theorem c2_gap_reset_and_recovery :
    (∀ (db : DbState) (c t : Int) (N : Nat),
        db.streak.last_check_in = some c → 2 ≤ N →
        t - c = (N : Int) * minutes_per_day →
        (update_streak db false t).1 = (0, N)) ∧
    (∀ (db : DbState) (c t : Int),
        db.streak.last_check_in = some c → t - c > minutes_per_day →
        (update_streak db true t).1 = (1, 0)) := by
  constructor
  · intro db c t N hlast hN hdiff
    have hN2 : (2 : Int) ≤ (N : Int) := by exact_mod_cast hN
    have hgt : t - c > minutes_per_day := by
      rw [hdiff]; unfold minutes_per_day; nlinarith
    simp only [update_streak, update_streak_counters, hlast, if_pos hgt,
      Bool.false_eq_true, if_false]
    have hdays : (t - c).fdiv minutes_per_day = (N : Int) := by
      rw [hdiff]
      unfold minutes_per_day
      exact Int.mul_fdiv_cancel _ (by norm_num)
    rw [hdays]
    have hpos : ((N : Int) > 0) := by omega
    rw [if_pos hpos]
    simp
  · intro db c t hlast hgt
    simp [update_streak, update_streak_counters, hlast, if_pos hgt]

theorem c2_gap_reset_and_recovery_witness :
    (update_streak ⟨⟨7, 0, some 0⟩, []⟩ false 2880).1 = (0, 2) ∧
      (update_streak ⟨⟨0, 9, some 0⟩, []⟩ true 1441).1 = (1, 0) :=
  ⟨c2_gap_reset_and_recovery.1 ⟨⟨7, 0, some 0⟩, []⟩ 0 2880 2 rfl (by decide) (by decide),
    c2_gap_reset_and_recovery.2 ⟨⟨0, 9, some 0⟩, []⟩ 0 1441 rfl (by decide)⟩

/-- C1: if a first caller-facing completion at `t0` went through (reply
"completed", store `db0`), a second completion on the same calendar day and
within 24 hours is answered "already completed" and returns the store `db0`
untouched: the counters keep their values from the first call, nothing is
re-committed and no check-in row is appended. -/
theorem c1_duplicate_completion_short_circuit (db : DbState) (t0 t1 : Int)
    (cs rs : Nat) (db0 : DbState)
    (h0 : handle_checkmark_message db t0 = (CheckmarkReply.completed cs rs, db0))
    (hday : t1.fdiv minutes_per_day = t0.fdiv minutes_per_day)
    (hafter : t0 ≤ t1)
    (h24 : t1 - t0 < minutes_per_day) :
    handle_checkmark_message db0 t1 = (CheckmarkReply.already_completed, db0) := by
  unfold handle_checkmark_message at h0
  by_cases hg : has_checkmark_today (load_todays_checkins db t0) t0 = true
  · rw [if_pos hg] at h0
    exact absurd (congrArg Prod.fst h0) (by simp)
  · rw [if_neg hg] at h0
    have hdb0 : db0 = (update_streak db true t0).2 := (congrArg Prod.snd h0).symm
    subst hdb0
    have hcheck : (update_streak db true t0).2.check_ins =
        db.check_ins ++ [⟨t0, true⟩] := by
      simp [update_streak, update_user_streak, record_check_in]
    have hguard : has_checkmark_today
        (load_todays_checkins (update_streak db true t0).2 t1) t1 = true := by
      unfold has_checkmark_today load_todays_checkins get_today_check_ins
      rw [hcheck, List.any_eq_true]
      refine ⟨t0, ?_, by simpa using h24⟩
      simp only [List.mem_map, List.mem_filter, List.mem_append,
        List.mem_singleton]
      refine ⟨⟨t0, true⟩, ⟨⟨Or.inr rfl, ?_⟩, rfl⟩, rfl⟩
      have hds : day_start t1 ≤ t0 := by
        unfold day_start
        rw [hday, fdiv_day]
        unfold minutes_per_day
        omega
      simpa using hds
    unfold handle_checkmark_message
    rw [if_pos hguard]

theorem c1_duplicate_completion_short_circuit_witness :
    handle_checkmark_message (update_streak init_state true 600).2 700 =
      (CheckmarkReply.already_completed, (update_streak init_state true 600).2) :=
  c1_duplicate_completion_short_circuit init_state 600 700 1 0
    (update_streak init_state true 600).2 (by decide) (by decide) (by decide) (by decide)

theorem update_streak_zero_invariant (db : DbState) (b : Bool) (t : Int)
    (h : db.streak.current_streak = 0 ∨ db.streak.reverse_streak = 0) :
    (update_streak db b t).2.streak.current_streak = 0 ∨
      (update_streak db b t).2.streak.reverse_streak = 0 := by
  simp only [update_streak, update_streak_counters, update_user_streak]
  cases hl : db.streak.last_check_in with
  | none => cases b <;> simp
  | some c => cases b <;> simp only [hl] <;> split_ifs <;> simp_all

/-- C4: in every store reachable from the fresh zero state by any sequence of
engine calls, at most one of the two counters is positive: current_streak = 0
or reverse_streak = 0. -/
theorem c4_counters_mutually_exclusive (calls : List (Bool × Int)) :
    (run_calls calls).streak.current_streak = 0 ∨
      (run_calls calls).streak.reverse_streak = 0 := by
  suffices h : ∀ db : DbState,
      db.streak.current_streak = 0 ∨ db.streak.reverse_streak = 0 →
      (calls.foldl advance_step db).streak.current_streak = 0 ∨
        (calls.foldl advance_step db).streak.reverse_streak = 0 from
    h init_state (Or.inl rfl)
  induction calls with
  | nil => intro db h; exact h
  | cons hd tl ih =>
      intro db h
      rw [List.foldl_cons]
      exact ih _ (update_streak_zero_invariant db hd.1 hd.2 h)

/-- C10: every engine call that reaches the final commit — completions,
non-completions and duplicate same-day completions alike — overwrites
`last_check_in` with the call's time; consequently, after a non-completion
call the over-24h gap test of the next call measures from that call, not from
the last completion: two successive non-completions each within 24 hours of
the previous call leave the counters untouched even when the second call is
more than 24 hours after the last completion. -/
theorem c10_last_check_in_frame :
    (∀ (db : DbState) (b : Bool) (t : Int),
        (update_streak db b t).2.streak.last_check_in = some t) ∧
    (∀ (db : DbState) (c t1 t2 : Int),
        db.streak.last_check_in = some c → t1 - c ≤ minutes_per_day →
        t2 - t1 ≤ minutes_per_day →
        (update_streak (update_streak db false t1).2 false t2).1 =
          (db.streak.current_streak, db.streak.reverse_streak)) := by
  constructor
  · intro db b t
    rfl
  · intro db c t1 t2 hlast h1 h2
    have hn1 : ¬(t1 - c > minutes_per_day) := not_lt.2 h1
    have hn2 : ¬(t2 - t1 > minutes_per_day) := not_lt.2 h2
    simp [update_streak, update_streak_counters, update_user_streak, hlast,
      hn1, hn2]

theorem c10_last_check_in_frame_witness :
    (update_streak (update_streak ⟨⟨5, 0, some 0⟩, [⟨0, true⟩]⟩ false 1000).2
        false 2200).1 = (5, 0) :=
  c10_last_check_in_frame.2 ⟨⟨5, 0, some 0⟩, [⟨0, true⟩]⟩ 0 1000 2200 rfl
    (by decide) (by decide)

/-- C8 counterexample: with the commit of the updated counters failing, a
completion call on the fresh subject leaves the store changed — the check-in
row inserted before the commit is still there while the counters kept their
prior values — refuting the claim that the prior state is unchanged with no
newly appended check-in event. -/
theorem c8_counterexample_failed_commit_appends :
    update_streak_failed_commit init_state true 600 ≠ init_state ∧
    (update_streak_failed_commit init_state true 600).check_ins =
      init_state.check_ins ++ [⟨600, true⟩] ∧
    (update_streak_failed_commit init_state true 600).streak =
      init_state.streak := by
  decide

/-- C8 (amended): when the final counter commit of a streak-advance call
fails, the streak row — counters and `last_check_in` — keeps its prior value,
but the check-in row inserted earlier in the same call (for a completion)
remains visible: the call is not atomic.  The failed-commit store is exactly
the successful run's store without its final streak-row write. -/
theorem c8_failed_commit_no_counter_update (db : DbState) (b : Bool) (t : Int) :
    (update_streak_failed_commit db b t).streak = db.streak ∧
    (update_streak_failed_commit db b t).check_ins =
      (if b then db.check_ins ++ [⟨t, true⟩] else db.check_ins) ∧
    (update_streak db b t).2 =
      update_user_streak (update_streak_failed_commit db b t)
        (update_streak_counters db b t).1 (update_streak_counters db b t).2 t := by
  refine ⟨?_, ?_, rfl⟩ <;>
    cases b <;> simp [update_streak_failed_commit, record_check_in]

/-- C5: the reminder-due decision of the per-minute scheduler is true only
when the current local (hour, minute) exactly equals one of the subject's
configured reminder times; one minute off a configured time — configured
08:00, now 08:01 — yields false, with no tolerance window. -/
theorem c5_exact_time_match :
    (∀ (rts : List ReminderTime) (now : ReminderTime) (sent : List String)
        (hc : Bool), reminder_due rts now sent hc = true → ∃ rt ∈ rts, now = rt) ∧
    reminder_due [⟨8, 0⟩] ⟨8, 1⟩ [] false = false := by
  constructor
  · intro rts now sent hc h
    rw [reminder_due, List.any_eq_true] at h
    obtain ⟨rt, hmem, hp⟩ := h
    simp only [should_schedule_reminder, Bool.and_eq_true, decide_eq_true_eq] at hp
    exact ⟨rt, hmem, hp.1.1⟩
  · decide

theorem c5_exact_time_match_witness :
    ∃ rt ∈ ([⟨8, 0⟩] : List ReminderTime), (⟨8, 0⟩ : ReminderTime) = rt :=
  c5_exact_time_match.1 [⟨8, 0⟩] ⟨8, 0⟩ [] false (by decide)

/-- C6 (code evaluated at the failing input): `record_reminder_sent` stores
`time(8, 0).isoformat()`, the string "08:00:00"; the dedup parse of
`check_and_send_reminders` cannot unpack its three colon-fields into two and
the error is swallowed, so the matching sent-reminder record of today is
ignored and the decision stays true — while with the two-field string "08:00"
(the format the repository's own test feeds it) the same record suppresses
the reminder as the claim demands. -/
theorem c6_sent_record_dedup_broken :
    record_reminder_sent ⟨8, 0⟩ = "08:00:00" ∧
    parse_sent_time (record_reminder_sent ⟨8, 0⟩) = none ∧
    reminder_due [⟨8, 0⟩] ⟨8, 0⟩ [record_reminder_sent ⟨8, 0⟩] false = true ∧
    reminder_due [⟨8, 0⟩] ⟨8, 0⟩ ["08:00"] false = false := by
  refine ⟨rfl, rfl, rfl, rfl⟩

/-- C7: whenever the subject already has a checkmark within the trailing 24
hours (the engine's duplicate-guard query), the reminder-due decision is
false — for every configured time list, every current time, and every
sent-reminder history, matching or not. -/
theorem c7_completion_suppresses_reminder (rts : List ReminderTime)
    (now : ReminderTime) (sent : List String) (db : DbState) (t : Int)
    (h : has_checkmark_today (load_todays_checkins db t) t = true) :
    reminder_due rts now sent
      (has_checkmark_today (load_todays_checkins db t) t) = false := by
  rw [h]
  simp [reminder_due, should_schedule_reminder]

theorem c7_completion_suppresses_reminder_witness :
    reminder_due [⟨8, 0⟩] ⟨8, 0⟩ []
      (has_checkmark_today
        (load_todays_checkins ⟨⟨1, 0, some 600⟩, [⟨600, true⟩]⟩ 700) 700) = false :=
  c7_completion_suppresses_reminder [⟨8, 0⟩] ⟨8, 0⟩ []
    ⟨⟨1, 0, some 600⟩, [⟨600, true⟩]⟩ 700 (by decide)
